import Mathlib

/-!
Verification development for the VCF validation engine
(`expert_knowledge.py` and `statistical_analysis.py`).

A file is modelled as a `List String` of its lines (without trailing
newline characters).  Python string primitives used by the source
(`str.strip`, `str.split` with a one-character separator,
`str.startswith`, `int(...)`, `float(...)`) are embedded explicitly
below; machine integers do not occur (Python integers are unbounded),
so `Int`/`Nat` are exact models.
-/

/-- Python whitespace for `str.strip` / `int` / `float`:
space, tab, newline, carriage return, vertical tab, form feed. -/
def pyWs (c : Char) : Bool :=
  c == ' ' || c == '\t' || c == '\n' || c == '\r' || c == '\x0b' || c == '\x0c'

/-- Strip `pyWs` characters from both ends of a character list. -/
def stripPyWs (cs : List Char) : List Char :=
  ((cs.dropWhile pyWs).reverse.dropWhile pyWs).reverse

/-- Embedding of Python `str.strip()`. -/
def pyStrip (s : String) : String :=
  ⟨stripPyWs s.data⟩

/-- Embedding of Python `s.startswith(pre)`. -/
def pyStartswith (s : String) (pre : String) : Bool :=
  pre.data.isPrefixOf s.data

/-- Embedding of Python `s[n:]` for a nonnegative `n`. -/
def strDrop (s : String) (n : Nat) : String :=
  ⟨s.data.drop n⟩

/-- Split a character list on a separator character, keeping empty
segments, as Python `str.split(sep)` does for a one-character `sep`. -/
def splitChar (sep : Char) : List Char → List (List Char)
  | [] => [[]]
  | c :: cs =>
    let r := splitChar sep cs
    if c = sep then [] :: r
    else
      match r with
      | h :: t => (c :: h) :: t
      | [] => [[c]]

/-- Embedding of Python `s.split(sep)` for a one-character separator. -/
def pySplit (s : String) (sep : Char) : List String :=
  (splitChar sep s.data).map (fun l => ⟨l⟩)

/-- Split a list at the first occurrence of `sep`, if any. -/
def splitOnFirst (sep : Char) : List Char → Option (List Char × List Char)
  | [] => none
  | c :: cs =>
    if c = sep then some ([], cs)
    else
      match splitOnFirst sep cs with
      | some (a, b) => some (c :: a, b)
      | none => none

/-- Digit run as accepted inside Python numeric literals after the first
digit: every underscore must be followed by a digit. -/
def digitsURest : List Char → Bool
  | [] => true
  | '_' :: c :: cs => c.isDigit && digitsURest cs
  | '_' :: [] => false
  | c :: cs => c.isDigit && digitsURest cs

/-- Nonempty digit run with optional single underscores between digits,
as accepted by Python `int` / `float` (e.g. `1_000`). -/
def digitsU : List Char → Bool
  | [] => false
  | c :: cs => c.isDigit && digitsURest cs

/-- Numeric value of a digit-and-underscore run (underscores ignored). -/
def digitsVal : List Char → Nat → Nat
  | [], acc => acc
  | c :: cs, acc =>
    if c = '_' then digitsVal cs acc
    else digitsVal cs (acc * 10 + (c.toNat - '0'.toNat))

/-- Embedding of Python `int(s)` on a string argument: surrounding
whitespace, an optional sign, then a digit run; `none` models the
`ValueError` raised on anything else. -/
def pyInt (s : String) : Option Int :=
  match stripPyWs s.data with
  | '+' :: r => if digitsU r then some (Int.ofNat (digitsVal r 0)) else none
  | '-' :: r => if digitsU r then some (-(Int.ofNat (digitsVal r 0))) else none
  | r => if digitsU r then some (Int.ofNat (digitsVal r 0)) else none

/-- Whether Python `int(s)` succeeds. -/
def pyIntParses (s : String) : Bool :=
  (pyInt s).isSome

/-- Mantissa of a Python float literal: optional digit run, optional
dot, optional fractional digit run, at least one digit overall. -/
def mantissaOk (cs : List Char) : Bool :=
  match splitOnFirst '.' cs with
  | none => digitsU cs
  | some (a, b) =>
    (a.isEmpty || digitsU a) && (b.isEmpty || digitsU b) && !(a.isEmpty && b.isEmpty)

/-- Exponent body of a Python float literal (after the `e`). -/
def expOk : List Char → Bool
  | '+' :: r => digitsU r
  | '-' :: r => digitsU r
  | r => digitsU r

/-- Numeric (non-special) body of a Python float literal, lowercased. -/
def floatNumber (cs : List Char) : Bool :=
  match splitOnFirst 'e' cs with
  | none => mantissaOk cs
  | some (m, e) => mantissaOk m && expOk e

/-- Whether Python `float(s)` succeeds on a string argument:
whitespace-stripped, case-insensitive, optional sign, then `inf`,
`infinity`, `nan`, or a numeric literal. -/
def pyFloatParses (s : String) : Bool :=
  let cs := (stripPyWs s.data).map Char.toLower
  let body :=
    match cs with
    | '+' :: r => r
    | '-' :: r => r
    | r => r
  body == "inf".data || body == "infinity".data || body == "nan".data || floatNumber body

/-- Embedding of `validate_type` from `statistical_analysis.py`: checks a
string value against a declared VCF field type. -/
def validate_type (value : String) (field_type : String) : Bool :=
  if field_type = "Integer" then pyIntParses value
  else if field_type = "Float" then pyFloatParses value
  else if field_type = "Flag" then value == ""
  else if field_type = "Character" then value.length == 1
  else if field_type = "String" then true
  else false

/-- Insert into a model of a Python `dict` (`m[k] = v`): later bindings
shadow earlier ones under `List.lookup`. -/
def dictInsert {β : Type} (m : List (String × β)) (k : String) (v : β) : List (String × β) :=
  (k, v) :: m.filter (fun p => !(p.1 == k))

/-- Fold over the comma-separated parts of a `##contig=<...>` header in
`validate_vcf_positions`: `ID=` parts set the chromosome id, `length=`
parts run `int(...)` (whose failure is the uncaught `ValueError`,
modelled as `Except.error`). -/
def contigFold : List String → Option String → Option Int → Except String (Option String × Option Int)
  | [], ci, le => Except.ok (ci, le)
  | p :: ps, ci, le =>
    if pyStartswith p "ID=" then contigFold ps (some (strDrop p 3)) le
    else if pyStartswith p "length=" then
      match pyInt (strDrop p 7) with
      | some v => contigFold ps ci (some v)
      | none => Except.error "ValueError"
    else contigFold ps ci le

/-- Python truthiness of `if chrom_id and length:` in
`validate_vcf_positions`: the id must be a non-`None` nonempty string
and the length a non-`None` nonzero integer. -/
def contigTruthy : Option String → Option Int → Bool
  | some cid, some le => !(cid == "") && !(le == 0)
  | _, _ => false

/-- Header phase of `validate_vcf_positions`: scan stripped lines, fold
`##contig=<ID=...` lines into the chromosome-length dict, stop after the
first `#CHROM` line, and return the dict plus the remaining lines. -/
def contigScan : List String → List (String × Int) → Except String (List (String × Int) × List String)
  | [], m => Except.ok (m, [])
  | l :: ls, m =>
    let line := pyStrip l
    if pyStartswith line "##contig=<ID=" then
      match contigFold (pySplit ⟨(line.data.drop 10).dropLast⟩ ',') none none with
      | Except.error e => Except.error e
      | Except.ok (ci, le) =>
        match ci, le with
        | some cid, some len =>
          if contigTruthy (some cid) (some len) then contigScan ls (dictInsert m cid len)
          else contigScan ls m
        | _, _ => contigScan ls m
    else if pyStartswith line "#CHROM" then Except.ok (m, ls)
    else contigScan ls m

/-- Data phase of `validate_vcf_positions`: skip `#` lines, split the
stripped line on tabs, skip lines with fewer than 5 fields or a
non-integer `POS`, and append `(chrom, pos, length)` when the chromosome
has a recorded length smaller than the position. -/
def posScan : List String → List (String × Int) → List (String × Int × Int) → List (String × Int × Int)
  | [], _, acc => acc
  | l :: ls, m, acc =>
    if pyStartswith l "#" then posScan ls m acc
    else
      let fields := pySplit (pyStrip l) '\t'
      if fields.length < 5 then posScan ls m acc
      else
        match pyInt (fields.getD 1 "") with
        | none => posScan ls m acc
        | some pos =>
          match List.lookup (fields.getD 0 "") m with
          | none => posScan ls m acc
          | some len =>
            if pos > len then posScan ls m (acc ++ [(fields.getD 0 "", pos, len)])
            else posScan ls m acc

/-- Embedding of `validate_vcf_positions` from `expert_knowledge.py`.
`Except.error` models the uncaught `ValueError` that a non-numeric
`length=` attribute raises during the header phase. -/
def validate_vcf_positions (lines : List String) : Except String (List (String × Int × Int)) :=
  match contigScan lines [] with
  | Except.error e => Except.error e
  | Except.ok (m, rest) => Except.ok (posScan rest m [])

/-- Specification-side restatement of the per-data-line position-bound
check, following the claim wording: on a data line (a non-`#` line with
at least 5 tab-separated fields) whose `POS` field parses as an integer
and whose `CHROM` has a declared contig length strictly smaller than
that position, exactly the triple (chromosome, position, declared
length); nothing when `POS` does not parse or no length is declared. -/
def positionBoundSpec (m : List (String × Int)) (l : String) : Option (String × Int × Int) :=
  if pyStartswith l "#" then none
  else
    let fields := pySplit (pyStrip l) '\t'
    if fields.length < 5 then none
    else
      match pyInt (fields.getD 1 "") with
      | none => none
      | some pos =>
        match List.lookup (fields.getD 0 "") m with
        | none => none
        | some len => if pos > len then some (fields.getD 0 "", pos, len) else none

/-- Valid nucleotide characters after upper-casing (`set("ACGTN")`). -/
def validNuc (c : Char) : Bool :=
  c.toUpper == 'A' || c.toUpper == 'C' || c.toUpper == 'G' || c.toUpper == 'T' || c.toUpper == 'N'

/-- Header phase of `validate_nucleotides`: drop every line up to and
including the first line starting with `#CHROM`. -/
def dropToChrom : List String → List String
  | [] => []
  | l :: ls => if pyStartswith l "#CHROM" then ls else dropToChrom ls

/-- Findings of `validate_nucleotides` for one data-phase line, in
append order: the `REF` check first, then each comma-separated `ALT`
allele. -/
def nucLine (l : String) : List (String × String × String × String) :=
  if pyStartswith l "#" then []
  else
    let fields := pySplit (pyStrip l) '\t'
    if fields.length < 5 then []
    else
      let chrom := fields.getD 0 ""
      let pos := fields.getD 1 ""
      let ref := fields.getD 3 ""
      let alt_field := fields.getD 4 ""
      (if ref.data.all validNuc then [] else [(chrom, pos, "REF", ref)]) ++
        (pySplit alt_field ',').filterMap (fun alt =>
          if alt.data.all validNuc then none else some (chrom, pos, "ALT", alt))

/-- Data phase of `validate_nucleotides`, accumulating findings. -/
def nucScan : List String → List (String × String × String × String) → List (String × String × String × String)
  | [], acc => acc
  | l :: ls, acc => nucScan ls (acc ++ nucLine l)

/-- Embedding of `validate_nucleotides` from `expert_knowledge.py`. -/
def validate_nucleotides (lines : List String) : List (String × String × String × String) :=
  nucScan (dropToChrom lines) []

/-- Substring occurrence test (Python `pat in s` for lists of chars). -/
def hasSub (pat : List Char) : List Char → Bool
  | [] => pat.isPrefixOf []
  | c :: cs => pat.isPrefixOf (c :: cs) || hasSub pat cs

/-- Backtracking for group 2 of `re.search(r"ID=([^,]+).*Type=([^,]+)", ...)`:
with `.*` greedy, the match uses the rightmost occurrence of `Type=`
that is followed by at least one non-comma character; the group is the
maximal non-comma run after it. -/
def tailMatch : List Char → Option (List Char)
  | [] => none
  | c :: cs =>
    match tailMatch cs with
    | some g => some g
    | none =>
      if ("Type=".data).isPrefixOf (c :: cs) then
        let g := ((c :: cs).drop 5).takeWhile (fun x => x ≠ ',')
        if g.isEmpty then none else some g
      else none

/-- Backtracking for group 1 (`[^,]+` after `ID=`): the reversed current
candidate is tried longest-first; on failure its last character is moved
back onto the remainder and group 2 is retried. -/
def g1SearchRev : List Char → List Char → Option (List Char × List Char)
  | [], _ => none
  | c :: pr, rest =>
    match tailMatch rest with
    | some g2 => some ((c :: pr).reverse, g2)
    | none => g1SearchRev pr (c :: rest)

/-- Leftmost-match scan of `re.search(r"ID=([^,]+).*Type=([^,]+)", ...)`:
try every occurrence of the literal `ID=` from the left. -/
def searchFrom : List Char → Option (List Char × List Char)
  | [] => none
  | c :: cs =>
    if ("ID=".data).isPrefixOf (c :: cs) then
      let after := (c :: cs).drop 3
      let run := after.takeWhile (fun x => x ≠ ',')
      let rest := after.dropWhile (fun x => x ≠ ',')
      match g1SearchRev run.reverse rest with
      | some r => some r
      | none => searchFrom cs
    else searchFrom cs

/-- Embedding of `re.search(r"ID=([^,]+).*Type=([^,]+)", line)` from
`data_type_consistency`, returning the two capture groups on success. -/
def idTypeSearch (s : String) : Option (String × String) :=
  match searchFrom s.data with
  | some (i, t) => some (⟨i⟩, ⟨t⟩)
  | none => none

/-- Whether some occurrence of `ID=` is followed, later in the list, by
an occurrence of `Type=` (order-sensitivity witness for the regex). -/
def idThenType : List Char → Bool
  | [] => false
  | c :: cs =>
    (("ID=".data).isPrefixOf (c :: cs) && hasSub ("Type=".data) ((c :: cs).drop 3)) || idThenType cs

/-- One recorded violation of `data_type_consistency`; each constructor
carries the data interpolated into the corresponding message of the
source. -/
inductive Finding where
  | infoShouldBeFlag (line : Nat) (item : String)
  | infoUndefined (line : Nat) (key : String)
  | infoValueMismatch (line : Nat) (key val expected : String)
  | formatUndefined (line : Nat) (key : String)
  | gtInvalid (line : Nat) (value : String)
  | formatValueMismatch (line : Nat) (key subval expected : String)
deriving DecidableEq

/-- Result record of `data_type_consistency` (`results` in the source). -/
structure DTCResults where
  is_valid : Bool
  info_type_mismatch : List Finding
  format_type_mismatch : List Finding
  undefined_info_field : List Finding
  undefined_format_field : List Finding
deriving DecidableEq

def dtcEmpty : DTCResults :=
  ⟨true, [], [], [], []⟩

def addInfoShouldBeFlag (r : DTCResults) (n : Nat) (item : String) : DTCResults :=
  { r with info_type_mismatch := r.info_type_mismatch ++ [Finding.infoShouldBeFlag n item], is_valid := false }

def addUndefinedInfo (r : DTCResults) (n : Nat) (key : String) : DTCResults :=
  { r with undefined_info_field := r.undefined_info_field ++ [Finding.infoUndefined n key], is_valid := false }

def addInfoMismatch (r : DTCResults) (n : Nat) (key val expected : String) : DTCResults :=
  { r with info_type_mismatch := r.info_type_mismatch ++ [Finding.infoValueMismatch n key val expected], is_valid := false }

def addUndefinedFormat (r : DTCResults) (n : Nat) (key : String) : DTCResults :=
  { r with undefined_format_field := r.undefined_format_field ++ [Finding.formatUndefined n key], is_valid := false }

def addGtInvalid (r : DTCResults) (n : Nat) (value : String) : DTCResults :=
  { r with format_type_mismatch := r.format_type_mismatch ++ [Finding.gtInvalid n value], is_valid := false }

def addFormatMismatch (r : DTCResults) (n : Nat) (key subval expected : String) : DTCResults :=
  { r with format_type_mismatch := r.format_type_mismatch ++ [Finding.formatValueMismatch n key subval expected], is_valid := false }

/-- Genotype grammar test of `data_type_consistency`:
`('/' in value and all(c.isdigit() or c == '/' for c in value)) or
('|' in value and all(c.isdigit() or c == '|' for c in value))`. -/
def gtValid (value : String) : Bool :=
  (value.data.any (fun c => c == '/') && value.data.all (fun c => c.isDigit || c == '/')) ||
    (value.data.any (fun c => c == '|') && value.data.all (fun c => c.isDigit || c == '|'))

/-- Check of one `(FORMAT key, sample value)` pair by
`data_type_consistency`: undeclared keys and the `.` value are skipped,
`GT` goes through the genotype grammar, every other declared key has
each comma-separated subvalue checked against its declared type. -/
def checkPair (ffields : List (String × String)) (n : Nat) (res : DTCResults) (kv : String × String) : DTCResults :=
  match List.lookup kv.1 ffields with
  | none => res
  | some expected_type =>
    if kv.2 = "." then res
    else if kv.1 = "GT" then
      if gtValid kv.2 then res else addGtInvalid res n kv.2
    else
      (pySplit kv.2 ',').foldl
        (fun r subval =>
          if subval ≠ "." && !(validate_type subval expected_type) then
            addFormatMismatch r n kv.1 subval expected_type
          else r)
        res

/-- Check of one semicolon-separated `INFO` item by
`data_type_consistency`: items without `=` are flag references, items
with `=` are split once and each comma-separated subvalue (other than
`.`) is checked against the declared type. -/
def infoItemCheck (ifields : List (String × String)) (n : Nat) (res : DTCResults) (item : String) : DTCResults :=
  if !(item.data.any (fun c => c == '=')) then
    match List.lookup item ifields with
    | none => addUndefinedInfo res n item
    | some t => if t = "Flag" then res else addInfoShouldBeFlag res n item
  else
    match splitOnFirst '=' item.data with
    | none => res
    | some (k, v) =>
      match List.lookup (⟨k⟩ : String) ifields with
      | none => addUndefinedInfo res n ⟨k⟩
      | some expected_type =>
        (pySplit ⟨v⟩ ',').foldl
          (fun r val =>
            if val = "." then r
            else if validate_type val expected_type then r
            else addInfoMismatch r n ⟨k⟩ val expected_type)
          res

/-- `INFO` column validation of one data line. -/
def processInfo (ifields : List (String × String)) (cidx : List (String × Nat)) (n : Nat)
    (fields : List String) (res : DTCResults) : DTCResults :=
  match List.lookup "INFO" cidx with
  | none => res
  | some idx =>
    if idx < fields.length then
      let info_field := fields.getD idx ""
      if info_field = "" || info_field = "." then res
      else (pySplit info_field ';').foldl (infoItemCheck ifields n) res
    else res

/-- Declaredness check of the colon-separated `FORMAT` keys. -/
def undefFormatFold (ffields : List (String × String)) (n : Nat) (keys : List String) (res : DTCResults) : DTCResults :=
  keys.foldl
    (fun r key => if (List.lookup key ffields).isNone then addUndefinedFormat r n key else r)
    res

/-- `FORMAT` column and sample column validation of one data line: keys
are checked for declaredness; if a sample column exists and its
colon-separated value count equals the key count, each pair is checked,
otherwise the sample is skipped (`continue` in the source). -/
def processFormat (ffields : List (String × String)) (cidx : List (String × Nat)) (n : Nat)
    (fields : List String) (res : DTCResults) : DTCResults :=
  match List.lookup "FORMAT" cidx with
  | none => res
  | some fidx =>
    if fidx < fields.length then
      let format_keys := pySplit (fields.getD fidx "") ':'
      let res1 := undefFormatFold ffields n format_keys res
      if fidx + 1 < fields.length then
        let sample_values := pySplit (fields.getD (fidx + 1) "") ':'
        if sample_values.length = format_keys.length then
          (format_keys.zip sample_values).foldl (checkPair ffields n) res1
        else res1
      else res1
    else res

/-- Loop state of `data_type_consistency`. -/
structure DTCState where
  info_fields : List (String × String)
  format_fields : List (String × String)
  column_indices : List (String × Nat)
  results : DTCResults
deriving DecidableEq

def dtcInit : DTCState :=
  ⟨[], [], [], dtcEmpty⟩

/-- Column indices from the `#CHROM` header line
(`column_indices[field] = i`). -/
def buildColumnIndices (fields : List String) : List (String × Nat) :=
  fields.enum.foldl (fun m p => dictInsert m p.2 p.1) []

/-- One iteration of the line loop of `data_type_consistency` (the pair
is `(line_number, raw line)` from `enumerate(vcf_file, 1)`). -/
def dtcLine (st : DTCState) (p : Nat × String) : DTCState :=
  let line := pyStrip p.2
  if pyStartswith line "##" then
    if pyStartswith line "##INFO=<" then
      match idTypeSearch line with
      | some (i, t) => { st with info_fields := dictInsert st.info_fields i t }
      | none => st
    else if pyStartswith line "##FORMAT=<" then
      match idTypeSearch line with
      | some (i, t) => { st with format_fields := dictInsert st.format_fields i t }
      | none => st
    else st
  else if pyStartswith line "#CHROM" then
    { st with column_indices := buildColumnIndices (pySplit line '\t') }
  else if line = "" || pyStartswith line "#" then st
  else
    let fields := pySplit line '\t'
    { st with
      results := processFormat st.format_fields st.column_indices p.1 fields
        (processInfo st.info_fields st.column_indices p.1 fields st.results) }

/-- Full line loop of `data_type_consistency`, exposing the final state. -/
def dtcRun (lines : List String) : DTCState :=
  (lines.enumFrom 1).foldl dtcLine dtcInit

/-- Embedding of `data_type_consistency` from `statistical_analysis.py`. -/
def data_type_consistency (lines : List String) : DTCResults :=
  (dtcRun lines).results

/-- Error lists of `vcf_header_consistency`; each entry carries the data
interpolated into the corresponding message of the source
(line numbers are 1-based). -/
structure VHCErrors where
  missing_headers : List String
  field_count_mismatch : List (Nat × Nat × Nat)
  invalid_contig_assembly : List Nat
  invalid_chrom_format : List (Nat × String)
deriving DecidableEq

/-- Result record of `vcf_header_consistency`. -/
structure VHCResults where
  is_valid : Bool
  errors : VHCErrors
deriving DecidableEq

/-- Loop state of `vcf_header_consistency`. -/
structure VHCState where
  results : VHCResults
  has_fileformat : Bool
  has_chrom_header : Bool
  expected_field_count : Nat
deriving DecidableEq

def vhcInit : VHCState :=
  ⟨⟨true, ⟨[], [], [], []⟩⟩, false, false, 0⟩

def vhcAddContig (r : VHCResults) (n : Nat) : VHCResults :=
  ⟨false, { r.errors with invalid_contig_assembly := r.errors.invalid_contig_assembly ++ [n] }⟩

def vhcAddCount (r : VHCResults) (n expected got : Nat) : VHCResults :=
  ⟨false, { r.errors with field_count_mismatch := r.errors.field_count_mismatch ++ [(n, expected, got)] }⟩

def vhcAddChrom (r : VHCResults) (n : Nat) (f : String) : VHCResults :=
  ⟨false, { r.errors with invalid_chrom_format := r.errors.invalid_chrom_format ++ [(n, f)] }⟩

/-- One iteration of the line loop of `vcf_header_consistency`: skip
blank lines, note the `##fileformat=` line, check `##contig=` lines for
the `assembly=GRCh38` substring, record the field count of the `#CHROM`
line, and on data lines check the field count and the `chr` prefix. -/
def vhcLine (st : VHCState) (p : Nat × String) : VHCState :=
  let line := pyStrip p.2
  if line = "" then st
  else if pyStartswith line "##fileformat=" then { st with has_fileformat := true }
  else if pyStartswith line "##contig=" then
    if hasSub ("assembly=GRCh38".data) line.data then st
    else { st with results := vhcAddContig st.results p.1 }
  else if pyStartswith line "#CHROM" then
    { st with has_chrom_header := true, expected_field_count := (pySplit line '\t').length }
  else if pyStartswith line "#" then st
  else
    let fields := pySplit line '\t'
    let st1 :=
      if fields.length = st.expected_field_count then st
      else { st with results := vhcAddCount st.results p.1 st.expected_field_count fields.length }
    if pyStartswith (fields.getD 0 "") "chr" then st1
    else { st1 with results := vhcAddChrom st1.results p.1 (fields.getD 0 "") }

/-- Post-loop mandatory-header reporting of `vcf_header_consistency`:
one `missing_headers` entry per absent header, `##fileformat` first. -/
def vhcFinalize (st : VHCState) : VHCResults :=
  let r1 :=
    if st.has_fileformat then st.results
    else ⟨false, { st.results.errors with missing_headers := st.results.errors.missing_headers ++ ["##fileformat"] }⟩
  if st.has_chrom_header then r1
  else ⟨false, { r1.errors with missing_headers := r1.errors.missing_headers ++ ["#CHROM"] }⟩

/-- Embedding of `vcf_header_consistency` from `statistical_analysis.py`. -/
def vcf_header_consistency (lines : List String) : VHCResults :=
  vhcFinalize ((lines.enumFrom 1).foldl vhcLine vhcInit)

/-- Whether some line, stripped, starts with `##fileformat=`. -/
def hasFF (lines : List String) : Bool :=
  lines.any (fun l => pyStartswith (pyStrip l) "##fileformat=")

/-- Whether some line, stripped, starts with `#CHROM`. -/
def hasCH (lines : List String) : Bool :=
  lines.any (fun l => pyStartswith (pyStrip l) "#CHROM")

/-- Specification-side genotype grammar, following the claim wording:
the given character is a separator occurring in the value, and the
value consists solely of decimal digits and that separator. -/
def soleSeparator (v : String) (sep : Char) : Prop :=
  sep ∈ v.data ∧ ∀ c ∈ v.data, c.isDigit = true ∨ c = sep

/-- Specification-side genotype well-formedness: digits plus one single
separator character, either `/` throughout or `|` throughout, with at
least one separator present. -/
def gtWellFormed (v : String) : Prop :=
  soleSeparator v '/' ∨ soleSeparator v '|'

instance (v : String) (sep : Char) : Decidable (soleSeparator v sep) := by
  unfold soleSeparator; infer_instance

instance (v : String) : Decidable (gtWellFormed v) := by
  unfold gtWellFormed; infer_instance

/-!
Helper lemmas and claim theorems.
-/

example : idTypeSearch "##INFO=<ID=DP,Number=1,Type=Integer,Description=d>" =
    some ("DP", "Integer") := rfl

example : idTypeSearch "##INFO=<Type=Integer,ID=DP,Number=1>" = none := rfl

example : data_type_consistency
    ["##INFO=<ID=DP,Number=1,Type=Integer,Description=d>",
     "#CHROM\tPOS\tID\tREF\tALT\tQUAL\tFILTER\tINFO",
     "chr1\t1\t.\tA\tT\t.\t.\tDP=abc"] =
    ⟨false, [Finding.infoValueMismatch 3 "DP" "abc" "Integer"], [], [], []⟩ := by decide

example : data_type_consistency
    ["##FORMAT=<ID=GT,Number=1,Type=String,Description=g>",
     "#CHROM\tPOS\tID\tREF\tALT\tQUAL\tFILTER\tINFO\tFORMAT\tS1",
     "chr1\t1\t.\tA\tT\t.\t.\t.\tGT\t0x1"] =
    ⟨false, [], [Finding.gtInvalid 3 "0x1"], [], []⟩ := by decide

example : vcf_header_consistency
    ["##fileformat=VCFv4.2",
     "##contig=<ID=chr1,length=100,assembly=GRCh38>",
     "#CHROM\tPOS\tID\tREF\tALT",
     "chr1\t1\t.\tA\tT"] = ⟨true, ⟨[], [], [], []⟩⟩ := by decide

example : vcf_header_consistency ["#CHROM\tPOS", "1\t2"] =
    ⟨false, ⟨["##fileformat"], [], [], [(2, "1")]⟩⟩ := by decide

example : vcf_header_consistency ["##contig=<ID=chr1>"] =
    ⟨false, ⟨["##fileformat", "#CHROM"], [], [1], []⟩⟩ := by decide

example : validate_vcf_positions
    ["##contig=<ID=chr1,length=100,assembly=GRCh38>",
     "#CHROM\tPOS\tID\tREF\tALT",
     "chr1\t150\t.\tA\tT"] = Except.ok [("chr1", 150, 100)] := rfl

example : validate_vcf_positions
    ["##contig=<ID=chr1,length=abc>", "#CHROM\tPOS"] = Except.error "ValueError" := rfl

example : validate_vcf_positions
    ["##contig=<ID=chr1,length=0>", "#CHROM\tPOS", "chr1\t150\t.\tA\tT"] = Except.ok [] := rfl

example : validate_nucleotides
    ["#CHROM\tPOS\tID\tREF\tALT", "chr1\t150\t.\tA\tX,T"] =
    [("chr1", "150", "ALT", "X")] := by decide

example : validate_type "42" "Integer" = true := by decide

example : validate_type "4.5e-2" "Float" = true := by decide

example : validate_type "1_0" "Integer" = true := by decide

example : validate_type "x" "Character" = true := by decide

example : validate_type "" "Flag" = true := by decide

example : validate_type "x" "Flag" = false := by decide

example : validate_type "abc" "Integer" = false := by decide

example : validate_type "nan" "Float" = true := by decide

example : validate_type "whatever" "String" = true := by decide

example : validate_type "1" "Unknown" = false := by decide

example : validate_type "." "Float" = false := by decide

theorem gtValid_iff (v : String) : gtValid v = true ↔ gtWellFormed v := by
  simp only [gtValid, gtWellFormed, soleSeparator, Bool.or_eq_true, Bool.and_eq_true,
    List.any_eq_true, List.all_eq_true, beq_iff_eq, Bool.or_eq_true]
  constructor
  · rintro (⟨⟨x, hx, rfl⟩, h⟩ | ⟨⟨x, hx, rfl⟩, h⟩)
    · exact Or.inl ⟨hx, h⟩
    · exact Or.inr ⟨hx, h⟩
  · rintro (⟨hm, h⟩ | ⟨hm, h⟩)
    · exact Or.inl ⟨⟨_, hm, rfl⟩, h⟩
    · exact Or.inr ⟨⟨_, hm, rfl⟩, h⟩

/-- C3: `validate_type` accepts a value exactly when the declared type
is `Integer` and the value parses as a base-10 integer, `Float` and it
parses as a floating-point number, `Flag` and it is empty, `Character`
and it is one character long, or `String` (anything); every other
declared type accepts nothing. -/
theorem claim_C3 (value field_type : String) :
    validate_type value field_type = true ↔
      ((field_type = "Integer" ∧ pyIntParses value = true) ∨
        (field_type = "Float" ∧ pyFloatParses value = true) ∨
        (field_type = "Flag" ∧ value = "") ∨
        (field_type = "Character" ∧ value.length = 1) ∨
        field_type = "String") := by
  unfold validate_type
  split_ifs with h1 h2 h3 h4 h5 <;> simp_all

/-- C4: a sample `GT` value checked by `data_type_consistency` (a
declared `GT` key with a value other than `.`) is accepted exactly when
it is digits plus one single separator, `/` throughout or `|`
throughout, with a separator present; otherwise the pair check appends
a `format_type_mismatch` finding for it. -/
theorem claim_C4 (ffields : List (String × String)) (t : String) (n : Nat)
    (res : DTCResults) (v : String)
    (hl : List.lookup "GT" ffields = some t) (hv : v ≠ ".") :
    (gtWellFormed v ∧ checkPair ffields n res ("GT", v) = res) ∨
      (¬gtWellFormed v ∧ checkPair ffields n res ("GT", v) = addGtInvalid res n v) := by
  by_cases hg : gtValid v = true
  · exact Or.inl ⟨(gtValid_iff v).mp hg, by simp [checkPair, hl, hv, hg]⟩
  · refine Or.inr ⟨fun h => hg ((gtValid_iff v).mpr h), ?_⟩
    simp [checkPair, hl, hv, hg]

theorem claim_C4_witness :
    (List.lookup "GT" [("GT", "String")] = some "String" ∧ ("0/1" : String) ≠ "." ∧
      gtWellFormed "0/1" ∧ checkPair [("GT", "String")] 3 dtcEmpty ("GT", "0/1") = dtcEmpty) ∧
      (¬gtWellFormed "0|1/2" ∧
        checkPair [("GT", "String")] 3 dtcEmpty ("GT", "0|1/2") = addGtInvalid dtcEmpty 3 "0|1/2") := by
  constructor
  · refine ⟨by decide, by decide, ?_⟩
    rcases claim_C4 [("GT", "String")] "String" 3 dtcEmpty "0/1" (by decide) (by decide) with h | h
    · exact h
    · exact absurd (by decide : gtWellFormed "0/1") h.1
  · rcases claim_C4 [("GT", "String")] "String" 3 dtcEmpty "0|1/2" (by decide) (by decide) with h | h
    · exact absurd h.1 (by decide)
    · exact h

theorem undefFormatFold_format_type_mismatch (keys : List String)
    (ffields : List (String × String)) (n : Nat) (res : DTCResults) :
    (undefFormatFold ffields n keys res).format_type_mismatch = res.format_type_mismatch := by
  induction keys generalizing res with
  | nil => rfl
  | cons k ks ih =>
    unfold undefFormatFold at ih ⊢
    rw [List.foldl_cons]
    rw [ih]
    by_cases h : (List.lookup k ffields).isNone <;> simp [h, addUndefinedFormat]

/-- C5: when the colon-separated sample value count differs from the
`FORMAT` key count, `data_type_consistency` does only the
declaredness check of the keys on that line — sample type-checking is
skipped entirely and no mismatch finding of any kind is appended. -/
theorem claim_C5 (ffields : List (String × String)) (cidx : List (String × Nat))
    (n : Nat) (fields : List String) (res : DTCResults) (fidx : Nat)
    (hlook : List.lookup "FORMAT" cidx = some fidx)
    (hlt : fidx < fields.length)
    (hlt2 : fidx + 1 < fields.length)
    (hne : (pySplit (fields.getD (fidx + 1) "") ':').length ≠ (pySplit (fields.getD fidx "") ':').length) :
    processFormat ffields cidx n fields res =
      undefFormatFold ffields n (pySplit (fields.getD fidx "") ':') res ∧
    (processFormat ffields cidx n fields res).format_type_mismatch = res.format_type_mismatch := by
  have h1 : processFormat ffields cidx n fields res =
      undefFormatFold ffields n (pySplit (fields.getD fidx "") ':') res := by
    simp only [processFormat, hlook]
    rw [if_pos hlt, if_pos hlt2, if_neg hne]
  exact ⟨h1, by rw [h1]; exact undefFormatFold_format_type_mismatch _ _ _ _⟩

theorem claim_C5_witness :
    processFormat [("GT", "String"), ("DP", "Integer")] [("FORMAT", 0)] 7 ["GT:DP", "0/1"] dtcEmpty =
      undefFormatFold [("GT", "String"), ("DP", "Integer")] 7 (pySplit "GT:DP" ':') dtcEmpty ∧
    (processFormat [("GT", "String"), ("DP", "Integer")] [("FORMAT", 0)] 7 ["GT:DP", "0/1"] dtcEmpty).format_type_mismatch = dtcEmpty.format_type_mismatch := by
  have h := claim_C5 [("GT", "String"), ("DP", "Integer")] [("FORMAT", 0)] 7 ["GT:DP", "0/1"]
    dtcEmpty 0 (by decide) (by decide) (by decide) (by decide)
  exact h

/-- C8: the claim that malformed header content never raises is right
about the intended behavior but wrong about the code: a `##contig`
header whose `length=` attribute is not numeric makes
`validate_vcf_positions` raise an uncaught `ValueError` (modelled as
`Except.error`), aborting validation of the file before the remaining
lines are processed. -/
theorem claim_C8 :
    validate_vcf_positions
      ["##fileformat=VCFv4.2",
       "##contig=<ID=chr1,length=abc,assembly=GRCh38>",
       "#CHROM\tPOS\tID\tREF\tALT",
       "chr1\t1\t.\tA\tT"] = Except.error "ValueError" := rfl

/-- C10: a line that splits into fewer than 5 tab-separated fields
contributes nothing to either domain-constraint validator: the
position scan and the nucleotide scan both leave their accumulators
untouched on it. -/
theorem claim_C10 (l : String) (ls : List String) (m : List (String × Int))
    (acc : List (String × Int × Int)) (acc2 : List (String × String × String × String))
    (h : (pySplit (pyStrip l) '\t').length < 5) :
    posScan (l :: ls) m acc = posScan ls m acc ∧
      nucScan (l :: ls) acc2 = nucScan ls acc2 := by
  constructor
  · by_cases hp : pyStartswith l "#" <;> simp [posScan, hp, h]
  · have hn : nucLine l = [] := by
      by_cases hp : pyStartswith l "#" <;> simp [nucLine, hp, h]
    simp [nucScan, hn]

theorem claim_C10_witness :
    (pySplit (pyStrip "chr1\t150\tx\ty") '\t').length < 5 ∧
      posScan ["chr1\t150\tx\ty"] [("chr1", 10)] [] = posScan [] [("chr1", 10)] [] ∧
      nucScan ["chr1\t150\tx\ty"] [] = nucScan [] [] := by
  have h := claim_C10 "chr1\t150\tx\ty" [] [("chr1", 10)] [] [] (by decide)
  exact ⟨by decide, h.1, h.2⟩

theorem posScan_cons (l : String) (ls : List String) (m : List (String × Int))
    (acc : List (String × Int × Int)) :
    posScan (l :: ls) m acc = posScan ls m (acc ++ (positionBoundSpec m l).toList) := by
  by_cases hp : pyStartswith l "#"
  · simp [posScan, positionBoundSpec, hp]
  · by_cases hlen : (pySplit (pyStrip l) '\t').length < 5
    · simp [posScan, positionBoundSpec, hp, hlen, -List.getD_eq_getElem?_getD]
    · cases hint : pyInt ((pySplit (pyStrip l) '\t').getD 1 "") with
      | none => simp [posScan, positionBoundSpec, hp, hlen, hint, -List.getD_eq_getElem?_getD]
      | some pos =>
        cases hlook : List.lookup ((pySplit (pyStrip l) '\t').getD 0 "") m with
        | none => simp [posScan, positionBoundSpec, hp, hlen, hint, hlook, -List.getD_eq_getElem?_getD]
        | some len =>
          by_cases hgt : pos > len
          · simp [posScan, positionBoundSpec, hp, hlen, hint, hlook, hgt, -List.getD_eq_getElem?_getD]
          · simp [posScan, positionBoundSpec, hp, hlen, hint, hlook, hgt, -List.getD_eq_getElem?_getD]

theorem posScan_eq_filterMap (rest : List String) (m : List (String × Int)) :
    ∀ acc, posScan rest m acc = acc ++ rest.filterMap (positionBoundSpec m) := by
  induction rest with
  | nil => intro acc; simp [posScan]
  | cons l ls ih =>
    intro acc
    rw [posScan_cons, ih, List.filterMap_cons]
    cases positionBoundSpec m l <;> simp

/-- C1: on a file whose header phase completes with contig-length map
`m` and data-phase lines `rest`, the position-bound check reports
exactly, per data line, the `(chromosome, position, declared length)`
triple described by `positionBoundSpec`: reported iff `POS` parses as
an integer and the declared length of `CHROM` is strictly smaller,
never reported when no length is declared, and silently skipped when
`POS` does not parse. -/
theorem claim_C1 (lines : List String) (m : List (String × Int)) (rest : List String)
    (h : contigScan lines [] = Except.ok (m, rest)) :
    validate_vcf_positions lines = Except.ok (rest.filterMap (positionBoundSpec m)) := by
  simp only [validate_vcf_positions, h]
  rw [posScan_eq_filterMap]
  rfl

theorem claim_C1_witness :
    contigScan
        ["##contig=<ID=chr1,length=100,assembly=GRCh38>",
         "#CHROM\tPOS\tID\tREF\tALT",
         "chr1\t150\t.\tA\tT", "chr1\tXYZ\t.\tA\tT", "chr2\t999\t.\tA\tT"] [] =
      Except.ok ([("chr1", 100)], ["chr1\t150\t.\tA\tT", "chr1\tXYZ\t.\tA\tT", "chr2\t999\t.\tA\tT"]) ∧
    validate_vcf_positions
        ["##contig=<ID=chr1,length=100,assembly=GRCh38>",
         "#CHROM\tPOS\tID\tREF\tALT",
         "chr1\t150\t.\tA\tT", "chr1\tXYZ\t.\tA\tT", "chr2\t999\t.\tA\tT"] =
      Except.ok [("chr1", 150, 100)] := by
  refine ⟨rfl, ?_⟩
  have h := claim_C1
    ["##contig=<ID=chr1,length=100,assembly=GRCh38>",
     "#CHROM\tPOS\tID\tREF\tALT",
     "chr1\t150\t.\tA\tT", "chr1\tXYZ\t.\tA\tT", "chr2\t999\t.\tA\tT"]
    [("chr1", 100)] ["chr1\t150\t.\tA\tT", "chr1\tXYZ\t.\tA\tT", "chr2\t999\t.\tA\tT"] rfl
  exact h.trans (congrArg Except.ok (by decide))

theorem startswith_conflict (s p q : String) (i : Nat)
    (hip : i < p.data.length) (hiq : i < q.data.length)
    (hne : p.data.get ⟨i, hip⟩ ≠ q.data.get ⟨i, hiq⟩)
    (h : pyStartswith s p = true) : pyStartswith s q = false := by
  unfold pyStartswith at h ⊢
  rw [List.isPrefixOf_iff_prefix] at h
  by_contra hq
  rw [Bool.not_eq_false, List.isPrefixOf_iff_prefix] at hq
  have h1 := h.getElem hip
  have h2 := hq.getElem hiq
  simp only [List.get_eq_getElem] at hne
  exact hne (h1.trans h2.symm)

theorem ff_not_chrom (s : String) (h : pyStartswith s "##fileformat=" = true) :
    pyStartswith s "#CHROM" = false :=
  startswith_conflict s _ _ 1 (by decide) (by decide) (by decide) h

theorem contig_not_chrom (s : String) (h : pyStartswith s "##contig=" = true) :
    pyStartswith s "#CHROM" = false :=
  startswith_conflict s _ _ 1 (by decide) (by decide) (by decide) h

theorem vhcLine_missing (st : VHCState) (p : Nat × String) :
    (vhcLine st p).results.errors.missing_headers = st.results.errors.missing_headers := by
  simp only [vhcLine]
  split_ifs <;> simp_all [vhcAddContig, vhcAddCount, vhcAddChrom]

theorem vhcLine_ff (st : VHCState) (p : Nat × String) :
    (vhcLine st p).has_fileformat =
      (st.has_fileformat || pyStartswith (pyStrip p.2) "##fileformat=") := by
  simp only [vhcLine]
  split_ifs with h1 h2 <;>
    simp_all [show pyStartswith "" "##fileformat=" = false from by decide,
      vhcAddContig, vhcAddCount, vhcAddChrom]

theorem vhcLine_ch (st : VHCState) (p : Nat × String) :
    (vhcLine st p).has_chrom_header =
      (st.has_chrom_header || pyStartswith (pyStrip p.2) "#CHROM") := by
  simp only [vhcLine]
  split_ifs with h1 h2 h3 h4 <;>
    simp_all [show pyStartswith "" "#CHROM" = false from by decide,
      ff_not_chrom, contig_not_chrom, vhcAddContig, vhcAddCount, vhcAddChrom]

theorem foldl_vhcLine_missing (L : List (Nat × String)) (st : VHCState) :
    (L.foldl vhcLine st).results.errors.missing_headers = st.results.errors.missing_headers := by
  induction L generalizing st with
  | nil => rfl
  | cons p ps ih => rw [List.foldl_cons, ih, vhcLine_missing]

theorem foldl_vhcLine_ff (L : List (Nat × String)) (st : VHCState) :
    (L.foldl vhcLine st).has_fileformat =
      (st.has_fileformat || L.any (fun p => pyStartswith (pyStrip p.2) "##fileformat=")) := by
  induction L generalizing st with
  | nil => simp
  | cons p ps ih => rw [List.foldl_cons, ih, vhcLine_ff]; simp [Bool.or_assoc]

theorem foldl_vhcLine_ch (L : List (Nat × String)) (st : VHCState) :
    (L.foldl vhcLine st).has_chrom_header =
      (st.has_chrom_header || L.any (fun p => pyStartswith (pyStrip p.2) "#CHROM")) := by
  induction L generalizing st with
  | nil => simp
  | cons p ps ih => rw [List.foldl_cons, ih, vhcLine_ch]; simp [Bool.or_assoc]

theorem enumFrom_any (q : String → Bool) (n : Nat) (lines : List String) :
    (List.enumFrom n lines).any (fun p => q p.2) = lines.any q := by
  induction lines generalizing n with
  | nil => rfl
  | cons l ls ih => simp [List.enumFrom, ih]

/-- C6: `vcf_header_consistency` reports, in `missing_headers`, exactly
one entry per absent mandatory header (`##fileformat` first, then
`#CHROM`), independent of the number of lines, and the file is marked
invalid whenever either is absent; in particular a file with a `#CHROM`
line but no `##fileformat` line gets `is_valid = false` with
`missing_headers = ["##fileformat"]`. -/
theorem claim_C6 (lines : List String) :
    (vcf_header_consistency lines).errors.missing_headers =
      ((if hasFF lines then ([] : List String) else ["##fileformat"]) ++
        (if hasCH lines then ([] : List String) else ["#CHROM"])) ∧
      (hasFF lines = false ∨ hasCH lines = false →
        (vcf_header_consistency lines).is_valid = false) := by
  have hf : ((lines.enumFrom 1).foldl vhcLine vhcInit).has_fileformat = hasFF lines := by
    rw [foldl_vhcLine_ff, enumFrom_any (fun l => pyStartswith (pyStrip l) "##fileformat=")]
    simp [vhcInit, hasFF]
  have hc : ((lines.enumFrom 1).foldl vhcLine vhcInit).has_chrom_header = hasCH lines := by
    rw [foldl_vhcLine_ch, enumFrom_any (fun l => pyStartswith (pyStrip l) "#CHROM")]
    simp [vhcInit, hasCH]
  have hm : ((lines.enumFrom 1).foldl vhcLine vhcInit).results.errors.missing_headers = [] := by
    rw [foldl_vhcLine_missing]; rfl
  constructor
  · unfold vcf_header_consistency vhcFinalize
    by_cases hF : hasFF lines <;> by_cases hC : hasCH lines <;> simp [hf, hc, hF, hC, hm]
  · intro hdisj
    unfold vcf_header_consistency vhcFinalize
    rcases hdisj with hF | hC
    · by_cases hC : hasCH lines <;> simp [hf, hc, hF, hC]
    · simp [hc, hC]

theorem claim_C6_witness :
    (vcf_header_consistency ["#CHROM\tPOS\tID\tREF\tALT", "chr1\t1\t.\tA\tT"]).errors.missing_headers =
        ["##fileformat"] ∧
      (vcf_header_consistency ["#CHROM\tPOS\tID\tREF\tALT", "chr1\t1\t.\tA\tT"]).is_valid = false := by
  have h := claim_C6 ["#CHROM\tPOS\tID\tREF\tALT", "chr1\t1\t.\tA\tT"]
  refine ⟨?_, h.2 (Or.inl (by decide))⟩
  rw [h.1]
  decide

theorem stripPyWs_sandwich (x y : Char) (d : List Char)
    (hx : pyWs x = false) (hy : pyWs y = false) :
    stripPyWs (x :: (d ++ [y])) = x :: (d ++ [y]) := by
  unfold stripPyWs
  rw [List.dropWhile_cons]
  simp only [hx, Bool.false_eq_true, if_false]
  rw [show (x :: (d ++ [y])).reverse = y :: (d.reverse ++ [x]) from by simp]
  rw [List.dropWhile_cons]
  simp only [hy, Bool.false_eq_true, if_false]
  simp

theorem isPrefixOf_append_self (p t : List Char) : p.isPrefixOf (p ++ t) = true := by
  simp [List.isPrefixOf_iff_prefix]

theorem splitChar_sepfree_append (sep : Char) (xs ys : List Char) (h : ∀ x ∈ xs, x ≠ sep) :
    splitChar sep (xs ++ sep :: ys) = xs :: splitChar sep ys := by
  induction xs with
  | nil => simp [splitChar]
  | cons x xs ih =>
    have hx : x ≠ sep := h x (List.mem_cons_self _ _)
    rw [List.cons_append]
    simp only [splitChar]
    rw [ih (fun a ha => h a (List.mem_cons_of_mem _ ha))]
    simp [hx]

/-- C9: a `##contig` header declaring `length=0` contributes no entry
to the contig-length map — the whole position validation behaves
exactly as if the line were absent, so positions on that chromosome
are unconstrained. -/
theorem claim_C9 (c : String) (ls : List String) (hc : ',' ∉ c.data) :
    (∀ m, contigScan (("##contig=<ID=" ++ c ++ ",length=0>") :: ls) m = contigScan ls m) ∧
      validate_vcf_positions (("##contig=<ID=" ++ c ++ ",length=0>") :: ls) =
        validate_vcf_positions ls := by
  have horig : ("##contig=<ID=" ++ c ++ ",length=0>").data =
      "##contig=<ID=".data ++ (c.data ++ ",length=0>".data) := by
    simp [String.data_append]
  have hshape : ("##contig=<ID=" ++ c ++ ",length=0>").data =
      '#' :: (("#contig=<ID=".data ++ c.data ++ ",length=0".data) ++ ['>']) := by
    rw [horig]
    rw [show "##contig=<ID=".data = '#' :: "#contig=<ID=".data from rfl,
      show ",length=0>".data = ",length=0".data ++ ['>'] from rfl]
    simp [List.append_assoc, List.cons_append]
  have hstrip : pyStrip ("##contig=<ID=" ++ c ++ ",length=0>") =
      "##contig=<ID=" ++ c ++ ",length=0>" := by
    unfold pyStrip
    rw [hshape, stripPyWs_sandwich '#' '>' _ (by decide) (by decide), ← hshape]
  have hpre : pyStartswith ("##contig=<ID=" ++ c ++ ",length=0>") "##contig=<ID=" = true := by
    unfold pyStartswith
    rw [horig]
    exact isPrefixOf_append_self _ _
  have hdrop : ("##contig=<ID=" ++ c ++ ",length=0>").data.drop 10 =
      "ID=".data ++ (c.data ++ ",length=0>".data) := by
    rw [horig, show "##contig=<ID=".data = "##contig=<".data ++ "ID=".data from rfl,
      List.append_assoc]
    rw [show (10 : Nat) = ("##contig=<".data).length from rfl]
    exact List.drop_left _ _
  have hdroplast : ("ID=".data ++ (c.data ++ ",length=0>".data)).dropLast =
      "ID=".data ++ (c.data ++ ",length=0".data) := by
    rw [show ",length=0>".data = ",length=0".data ++ ['>'] from rfl]
    rw [← List.append_assoc, ← List.append_assoc, List.dropLast_concat]
    simp [List.append_assoc]
  have hfree : ∀ x ∈ "ID=".data ++ c.data, x ≠ ',' := by
    intro x hx he
    subst he
    rcases List.mem_append.mp hx with h | h
    · exact absurd h (by decide)
    · exact hc h
  have hsplit : splitChar ',' ("ID=".data ++ (c.data ++ ",length=0".data)) =
      ("ID=".data ++ c.data) :: ["length=0".data] := by
    rw [show ",length=0".data = ',' :: "length=0".data from rfl, ← List.append_assoc]
    rw [splitChar_sepfree_append ',' ("ID=".data ++ c.data) ("length=0".data) hfree]
    rfl
  have hf1 : pyStartswith (⟨"ID=".data ++ c.data⟩ : String) "ID=" = true := by
    show ("ID=".data).isPrefixOf ("ID=".data ++ c.data) = true
    exact isPrefixOf_append_self _ _
  have hdrop3 : strDrop (⟨"ID=".data ++ c.data⟩ : String) 3 = c := by
    show (⟨("ID=".data ++ c.data).drop 3⟩ : String) = c
    rw [show (3 : Nat) = ("ID=".data).length from rfl, List.drop_left]
  have hfold : contigFold [(⟨"ID=".data ++ c.data⟩ : String), "length=0"] none none =
      Except.ok (some c, some 0) := by
    simp only [contigFold, hf1, if_true, hdrop3,
      show pyStartswith "length=0" "ID=" = false from by decide,
      show pyStartswith "length=0" "length=" = true from by decide,
      show pyInt (strDrop "length=0" 7) = some 0 from by decide,
      Bool.false_eq_true, if_false]
  have hstep : ∀ m, contigScan (("##contig=<ID=" ++ c ++ ",length=0>") :: ls) m = contigScan ls m := by
    intro m
    simp only [contigScan, hstrip, hpre, if_true]
    rw [show (pySplit (⟨(("##contig=<ID=" ++ c ++ ",length=0>").data.drop 10).dropLast⟩ : String) ',')
        = [(⟨"ID=".data ++ c.data⟩ : String), "length=0"] from by
      show (splitChar ',' (("##contig=<ID=" ++ c ++ ",length=0>").data.drop 10).dropLast).map
          (fun l => (⟨l⟩ : String)) = _
      rw [hdrop, hdroplast, hsplit]
      rfl]
    rw [hfold]
    simp [contigTruthy]
  exact ⟨hstep, by unfold validate_vcf_positions; rw [hstep []]⟩

theorem claim_C9_witness :
    (',' ∉ ("chr7" : String).data) ∧
      validate_vcf_positions
          ["##contig=<ID=" ++ "chr7" ++ ",length=0>", "#CHROM\tPOS\tID\tREF\tALT", "chr7\t150\t.\tA\tT"] =
        validate_vcf_positions ["#CHROM\tPOS\tID\tREF\tALT", "chr7\t150\t.\tA\tT"] :=
  ⟨by decide, (claim_C9 "chr7" ["#CHROM\tPOS\tID\tREF\tALT", "chr7\t150\t.\tA\tT"] (by decide)).2⟩

theorem tailMatch_hasSub : ∀ (r : List Char), (tailMatch r).isSome = true →
    hasSub ("Type=".data) r = true := by
  intro r
  induction r with
  | nil => intro h; simp [tailMatch] at h
  | cons c cs ih =>
    intro h
    unfold tailMatch at h
    cases htm : tailMatch cs with
    | some g2 => simp [hasSub, ih (by simp [htm])]
    | none =>
      rw [htm] at h
      by_cases hp : ("Type=".data).isPrefixOf (c :: cs) = true
      · simp [hasSub, hp]
      · simp [hp] at h

theorem g1SearchRev_sub : ∀ (pr rest : List Char) (x : List Char × List Char),
    g1SearchRev pr rest = some x →
    ∃ s, s <:+ (pr.reverse ++ rest) ∧ (tailMatch s).isSome = true := by
  intro pr
  induction pr with
  | nil => intro rest x h; simp [g1SearchRev] at h
  | cons c pr ih =>
    intro rest x h
    unfold g1SearchRev at h
    cases htm : tailMatch rest with
    | some g2 => exact ⟨rest, List.suffix_append _ _, by simp [htm]⟩
    | none =>
      rw [htm] at h
      obtain ⟨s, hs, hsome⟩ := ih (c :: rest) x h
      refine ⟨s, ?_, hsome⟩
      rw [List.reverse_cons, List.append_assoc]
      simpa using hs

theorem hasSub_of_suffix (pat : List Char) : ∀ (r s : List Char), s <:+ r →
    hasSub pat s = true → hasSub pat r = true := by
  intro r
  induction r with
  | nil =>
    intro s hsf h
    rw [List.suffix_nil] at hsf
    rwa [hsf] at h
  | cons c cs ih =>
    intro s hsf h
    rcases List.suffix_cons_iff.mp hsf with rfl | hsf'
    · exact h
    · simp [hasSub, ih s hsf' h]

theorem searchFrom_idThenType : ∀ (l : List Char) (x : List Char × List Char),
    searchFrom l = some x → idThenType l = true := by
  intro l
  induction l with
  | nil => intro x h; simp [searchFrom] at h
  | cons c cs ih =>
    intro x h
    simp only [searchFrom] at h
    by_cases hp : ("ID=".data).isPrefixOf (c :: cs) = true
    · rw [if_pos hp] at h
      cases hg : g1SearchRev (((c :: cs).drop 3).takeWhile (fun x => x ≠ ',')).reverse
          (((c :: cs).drop 3).dropWhile (fun x => x ≠ ',')) with
      | some r =>
        obtain ⟨s, hs, hsome⟩ := g1SearchRev_sub _ _ _ hg
        rw [List.reverse_reverse, List.takeWhile_append_dropWhile] at hs
        have hsub : hasSub ("Type=".data) ((c :: cs).drop 3) = true :=
          hasSub_of_suffix _ _ s hs (tailMatch_hasSub s hsome)
        have hsub2 : hasSub ("Type=".data) (cs.drop 2) = true := by simpa using hsub
        simp [idThenType, hp, hsub2]
      | none =>
        rw [hg] at h
        simp [idThenType, ih x h]
    · rw [if_neg hp] at h
      simp [idThenType, ih x h]

theorem idTypeSearch_idThenType (s : String) (p : String × String)
    (h : idTypeSearch s = some p) : idThenType s.data = true := by
  unfold idTypeSearch at h
  cases hs : searchFrom s.data with
  | none => rw [hs] at h; simp at h
  | some x => exact searchFrom_idThenType s.data x hs

/-- C2 (amended): the `ID=`/`Type=` extraction is order-sensitive — a
header line in which no `ID=` occurrence is followed later in the line
by a `Type=` occurrence (in particular one where `Type=` precedes
`ID=`) contributes no entry to either type-declaration index. -/
theorem claim_C2 (st : DTCState) (n : Nat) (l : String)
    (h : idThenType (pyStrip l).data = false) :
    (dtcLine st (n, l)).info_fields = st.info_fields ∧
      (dtcLine st (n, l)).format_fields = st.format_fields := by
  cases hm : idTypeSearch (pyStrip l) with
  | some p => exact absurd (idTypeSearch_idThenType _ _ hm) (by simp [h])
  | none =>
    constructor <;>
      (simp only [dtcLine]; split_ifs <;> simp [hm])

theorem claim_C2_witness :
    idThenType (pyStrip "##INFO=<Type=Integer,ID=DP,Number=1>").data = false ∧
      (dtcLine dtcInit (1, "##INFO=<Type=Integer,ID=DP,Number=1>")).info_fields =
        dtcInit.info_fields :=
  ⟨by decide, (claim_C2 dtcInit 1 "##INFO=<Type=Integer,ID=DP,Number=1>" (by decide)).1⟩

/-- C2 counterexample: this `##INFO` header contains both an `ID=` and
a `Type=` attribute inside the angle brackets, with `Type=` first, yet
the index built from the file holds no entry for `DP` — refuting the
claim that attribute order does not matter. -/
theorem claim_C2_counterexample :
    hasSub ("ID=".data) ("##INFO=<Type=Integer,ID=DP,Number=1>").data = true ∧
      hasSub ("Type=".data) ("##INFO=<Type=Integer,ID=DP,Number=1>").data = true ∧
      List.lookup "DP" (dtcRun ["##INFO=<Type=Integer,ID=DP,Number=1>"]).info_fields = none := by
  refine ⟨by decide, by decide, ?_⟩
  rfl
